import Mathlib

/-!
Verification development for the value-investing research pipeline.

The definitions below are a shallow embedding of the Python sources:
string-processing helpers mirror the Python builtins they stand for
(str.find, str.rfind, slicing, substring tests after .upper or .lower),
the JSON values produced by the external json library are modelled by the
inductive type JValue, and each agent or client function is translated
statement by statement.  External collaborators (the json parser, the
Screener scraper, the upstream LLM HTTP endpoints, redis) are passed in as
explicit parameters or environment fields, so every repository-owned code
path is represented exactly.
-/

namespace VIA

/-- Python substring test: containsSub needle hay is true when needle occurs
contiguously inside hay (the `in` operator on str). -/
def containsSub (needle : List Char) : List Char → Bool
  | [] => needle.isEmpty
  | c :: rest => needle.isPrefixOf (c :: rest) || containsSub needle rest

/-- Python str.upper over the character list of a string (ASCII case map). -/
def pyUpper (s : String) : List Char := s.data.map Char.toUpper

/-- Python str.lower over the character list of a string (ASCII case map). -/
def pyLower (s : String) : List Char := s.data.map Char.toLower

/-- Python str.find for a single character: index of the first occurrence,
or -1 when absent. -/
def pyFindChar (s : List Char) (c : Char) : Int :=
  match s with
  | [] => -1
  | a :: rest =>
    if a = c then 0
    else
      let r := pyFindChar rest c
      if r = -1 then -1 else r + 1

/-- Python str.rfind for a single character: index of the last occurrence,
or -1 when absent. -/
def pyRFindChar (s : List Char) (c : Char) : Int :=
  match s with
  | [] => -1
  | a :: rest =>
    let r := pyRFindChar rest c
    if r = -1 then (if a = c then 0 else -1) else r + 1

/-- Python slice s[a:b] for nonnegative bounds, as used in the Synthesis
agent where a is a successful find result and b is rfind + 1. -/
def pySlice (s : List Char) (a b : Int) : List Char :=
  (s.drop a.toNat).take (b.toNat - a.toNat)

/-- Lookup in a Python dict modelled as an association list of strings
(dict.get, returning None when the key is absent). -/
def lookupS : List (String × String) → String → Option String
  | [], _ => none
  | (k, v) :: rest, key => if k = key then some v else lookupS rest key

/-- JSON values as produced by the external json library (json.loads). -/
inductive JValue where
  | null : JValue
  | bool : Bool → JValue
  | num : ℚ → JValue
  | str : String → JValue
  | arr : List JValue → JValue
  | obj : List (String × JValue) → JValue

/-- Lookup of a key in a JSON object field list (Python dict access). -/
def getKey : List (String × JValue) → String → Option JValue
  | [], _ => none
  | (k, v) :: rest, key => if k = key then some v else getKey rest key

/-- Python dict item assignment d[k] = v: replace the binding when the key
is present, otherwise append it. -/
def setKey : List (String × JValue) → String → JValue → List (String × JValue)
  | [], key, v => [(key, v)]
  | (k, w) :: rest, key, v =>
    if k = key then (key, v) :: rest else (k, w) :: setKey rest key v

/-- Numeric view of a JSON value under Python comparison semantics: JSON
numbers are numeric and JSON booleans compare as 1 and 0; every other value
raises TypeError when compared against a float. -/
def jNum : JValue → Option ℚ
  | JValue.num q => some q
  | JValue.bool b => some (if b then 1 else 0)
  | _ => none

/-- Fundamentals dict attached to a signal by the enrichment collaborator
(string keyed metrics such as market_cap, pe_ratio). -/
abbrev Fund : Type := List (String × String)

/-- Market signal handed to the pipeline by the data collector.  The Python
object is a dict with keys signal_type, source, data and priority; the
enrichment call of DataCollector.enrich_signal_with_fundamentals may attach
one further key, fundamentals, in place, which is modelled by the optional
field below (none means the key is absent, as on every freshly collected
signal). -/
structure Signal where
  signal_type : String
  source : String
  data : List (String × String)
  priority : ℚ
  fundamentals : Option Fund := none

/-- Cache of fundamentals keyed by the string fundamentals:SYMBOL, the
redis keyspace used by DataCollector (TTL bookkeeping is owned by redis and
is not consulted by the claims over this function). -/
abbrev FundCache : Type := List (String × Fund)

/-- Lookup in the fundamentals cache. -/
def fundLookup : FundCache → String → Option Fund
  | [], _ => none
  | (k, f) :: rest, key => if k = key then some f else fundLookup rest key

/-- Cache-miss path of DataCollector.enrich_signal_with_fundamentals: fetch
through ScreenerScraper.get_company_data (the scraper parameter, none
modelling a None or falsy result); a truthy dict is attached to the signal
and written to the cache with the 24 hour fundamentals TTL. -/
def enrichFromScraper (cache : FundCache) (scraper : String → Option Fund)
    (sig : Signal) (sym : String) : Signal × FundCache :=
  match scraper sym with
  | some f =>
    if f = ([] : Fund) then (sig, cache)
    else ({ sig with fundamentals := some f }, ("fundamentals:" ++ sym, f) :: cache)
  | none => (sig, cache)

/-- Embedding of DataCollector.enrich_signal_with_fundamentals: no symbol
or an empty symbol returns the signal untouched; a truthy cached dict is
attached and returned; otherwise the scraper path above runs.  Python
mutates the signal dict in place, so a result differing from the input
signal is exactly an in-place mutation of the object the caller holds. -/
def enrich_signal_with_fundamentals (cache : FundCache)
    (scraper : String → Option Fund) (sig : Signal) : Signal × FundCache :=
  match lookupS sig.data "symbol" with
  | none => (sig, cache)
  | some sym =>
    if sym = "" then (sig, cache)
    else
      match fundLookup cache ("fundamentals:" ++ sym) with
      | some f =>
        if f = ([] : Fund) then enrichFromScraper cache scraper sig sym
        else ({ sig with fundamentals := some f }, cache)
      | none => enrichFromScraper cache scraper sig sym

/-- ResearchState threaded through the LangGraph workflow (state.py), one
field per TypedDict key except the LangGraph message channel, which no
agent reads or writes.  Keys that the initial state leaves unset are
modelled by their Python falsy defaults (none, empty string, 0, false). -/
structure RState where
  signal : Signal
  is_interesting : Bool
  initial_assessment : String
  level1_context : Option String
  level2_historical : Option String
  level3_fundamentals : Option String
  level4_synthesis : Option String
  industry_context : Option String
  peer_comparison : Option String
  facts_verified : Bool
  validation_notes : String
  final_insight : Option JValue
  passes_threshold : Bool
  interestingness_score : ℚ
  research_path : List String
  errors : List String

/-- Initial state built by ResearchWorkflow.research_signal: only signal,
is_interesting, research_path, errors (and messages) are set. -/
def initState (sig : Signal) : RState :=
  { signal := sig
    is_interesting := false
    initial_assessment := ""
    level1_context := none
    level2_historical := none
    level3_fundamentals := none
    level4_synthesis := none
    industry_context := none
    peer_comparison := none
    facts_verified := false
    validation_notes := ""
    final_insight := none
    passes_threshold := false
    interestingness_score := 0
    research_path := []
    errors := [] }

/-- Verdict parsing of the Discovery agent: the substring test
INTERESTING: YES in response.upper(). -/
def parseInteresting (response : String) : Bool :=
  containsSub "INTERESTING: YES".data (pyUpper response)

/-- Verdict parsing of the Validation agent: the substring test
VERIFIED: YES in response.upper(). -/
def parseVerified (response : String) : Bool :=
  containsSub "VERIFIED: YES".data (pyUpper response)

/-- State update returned by DiscoveryAgent.__call__ given the raw LLM
response.  The live return statement sets research_path to the literal
one-element list; the appending variant written below it in the source,
after the comment line reading Correct approach, is unreachable dead
code. -/
def discoveryUpdate (st : RState) (response : String) : RState :=
  { st with
    is_interesting := parseInteresting response
    initial_assessment := response
    research_path := ["discovery"] }

/-- Environment of one pipeline run: the outcome of each of the nine LLM
call sites (an error value models an exception escaping the gateway after
retries), the external json parser used by the Synthesis agent, the
Screener scraper and the pre-run contents of the fundamentals cache.  The
LLM responses are free parameters because the model text is adversarial
input to the pipeline, not repository code. -/
structure StageEnv where
  jsonParse : List Char → Option JValue
  scraper : String → Option Fund
  fundCache : FundCache
  discoveryResp : Except Unit String
  level1Resp : Except Unit String
  level2Resp : Except Unit String
  level3Resp : Except Unit String
  level4Resp : Except Unit String
  industryResp : Except Unit String
  peerResp : Except Unit String
  validationResp : Except Unit String
  synthesisResp : Except Unit String

/-- State update of DeepResearchAgent.__call__: skip marker when the signal
is not interesting, otherwise the four research levels in source order.
The enrichment of level 1 runs on the incoming signal and the fundamentals
cache of the environment, the enrichment of level 3 reruns on its result
(the second call is the cache hit the source comments on), and the doubly
enriched signal object replaces the one in the state, mirroring the
in-place mutation. -/
def deepResearchUpdate (env : StageEnv) (st : RState) : Except Unit RState :=
  if st.is_interesting = false then
    Except.ok { st with research_path := st.research_path ++ ["deep_research_skipped"] }
  else
    match env.level1Resp with
    | Except.error e => Except.error e
    | Except.ok l1 =>
      match env.level2Resp with
      | Except.error e => Except.error e
      | Except.ok l2 =>
        match env.level3Resp with
        | Except.error e => Except.error e
        | Except.ok l3 =>
          match env.level4Resp with
          | Except.error e => Except.error e
          | Except.ok l4 =>
            Except.ok { st with
              signal := (enrich_signal_with_fundamentals
                  (enrich_signal_with_fundamentals env.fundCache env.scraper st.signal).2
                  env.scraper
                  (enrich_signal_with_fundamentals env.fundCache env.scraper st.signal).1).1
              level1_context := some l1
              level2_historical := some l2
              level3_fundamentals := some l3
              level4_synthesis := some l4
              research_path := st.research_path ++ ["deep_research"] }

/-- State update of ContextAgent.__call__: industry analysis then peer
comparison, both plain text, then one path append. -/
def contextUpdate (env : StageEnv) (st : RState) : Except Unit RState :=
  match env.industryResp with
  | Except.error e => Except.error e
  | Except.ok ind =>
    match env.peerResp with
    | Except.error e => Except.error e
    | Except.ok peer =>
      Except.ok { st with
        industry_context := some ind
        peer_comparison := some peer
        research_path := st.research_path ++ ["context"] }

/-- State update of ValidationAgent.__call__: one low-temperature call whose
response is scanned for VERIFIED: YES. -/
def validationUpdate (env : StageEnv) (st : RState) : Except Unit RState :=
  match env.validationResp with
  | Except.error e => Except.error e
  | Except.ok response =>
    Except.ok { st with
      facts_verified := parseVerified response
      validation_notes := response
      research_path := st.research_path ++ ["validation"] }

/-- Key injection done by the Synthesis agent after parsing: signal_type,
company_symbol and company_name are assigned into the parsed dict, the
latter two JSON null when signal data lacks the key. -/
def injectMeta (sig : Signal) (fields : List (String × JValue)) :
    List (String × JValue) :=
  let jOf : Option String → JValue := fun o =>
    match o with
    | some s => JValue.str s
    | none => JValue.null
  let f1 := setKey fields "signal_type" (JValue.str sig.signal_type)
  let f2 := setKey f1 "company_symbol" (jOf (lookupS sig.data "symbol"))
  setKey f2 "company_name" (jOf (lookupS sig.data "company"))

/-- Try-block of SynthesisAgent.__call__ given the raw LLM response: find
the first opening brace and the last closing brace, parse that slice as
JSON, inject the three metadata keys, and read interestingness_score as a
number.  Every failure inside the block, including the raise on a missing
brace, a parse error, a non-dict parse, a missing interestingness_score key
or a TypeError comparing it against 7.0, lands in the except clause, which
some models as none. -/
def synthesisResult (jsonParse : List Char → Option JValue) (sig : Signal)
    (response : String) : Option (List (String × JValue) × ℚ) :=
  let chars := response.data
  let start := pyFindChar chars '\x7b'
  let stop := pyRFindChar chars '\x7d' + 1
  if start ≠ -1 ∧ stop ≠ -1 then
    match jsonParse (pySlice chars start stop) with
    | some (JValue.obj fields) =>
      match getKey (injectMeta sig fields) "interestingness_score" with
      | some v =>
        match jNum v with
        | some q => some (injectMeta sig fields, q)
        | none => none
      | none => none
    | _ => none
  else none

/-- State update of SynthesisAgent.__call__: on success the final insight,
the threshold flag compared against the 7.0 literal, the score and a
synthesis path marker; on any exception a typed synthesis error appended to
errors and a synthesis_failed path marker, with no other key touched. -/
def synthesisUpdate (jsonParse : List Char → Option JValue) (st : RState)
    (response : String) : RState :=
  match synthesisResult jsonParse st.signal response with
  | some (fields, q) =>
    { st with
      final_insight := some (JValue.obj fields)
      passes_threshold := decide (7 ≤ q)
      interestingness_score := q
      research_path := st.research_path ++ ["synthesis"] }
  | none =>
    { st with
      errors := st.errors ++ ["Synthesis Error"]
      research_path := st.research_path ++ ["synthesis_failed"] }

/-- Embedding of the compiled LangGraph state machine (workflow.py): entry
node discovery, one conditional edge routed by _should_continue_research on
is_interesting, then the unconditional chain deep_research, context,
validation, synthesis, END.  The second component lists the nodes the
engine actually executed, in order; an error is an exception escaping
graph.invoke. -/
def graphInvoke (env : StageEnv) (sig : Signal) :
    Except Unit (RState × List String) :=
  match env.discoveryResp with
  | Except.error e => Except.error e
  | Except.ok r =>
    if (discoveryUpdate (initState sig) r).is_interesting then
      match deepResearchUpdate env (discoveryUpdate (initState sig) r) with
      | Except.error e => Except.error e
      | Except.ok st2 =>
        match contextUpdate env st2 with
        | Except.error e => Except.error e
        | Except.ok st3 =>
          match validationUpdate env st3 with
          | Except.error e => Except.error e
          | Except.ok st4 =>
            match env.synthesisResp with
            | Except.error e => Except.error e
            | Except.ok sr =>
              Except.ok (synthesisUpdate env.jsonParse st4 sr,
                ["discovery", "deep_research", "context", "validation", "synthesis"])
    else
      Except.ok (discoveryUpdate (initState sig) r, ["discovery"])

/-- Embedding of ResearchWorkflow.research_signal: invoke the graph inside
a try block, return the final insight when the threshold flag is truthy,
and None both on a below-threshold or early-terminated run and on any
exception caught at the run boundary. -/
def research_signal (env : StageEnv) (sig : Signal) : Option JValue :=
  match graphInvoke env sig with
  | Except.error _ => none
  | Except.ok (final, _) =>
    if final.passes_threshold then final.final_insight else none

/-- Embedding of the batch loop of scripts/daily_run.py: each signal is
researched in turn and truthy results are appended to the insights list. -/
def runBatch (batch : List (StageEnv × Signal)) : List JValue :=
  batch.foldl
    (fun acc p =>
      match research_signal p.1 p.2 with
      | some insight => acc ++ [insight]
      | none => acc)
    []

/-- Cache key of LLMClient._generate_cache_key: a deterministic function of
exactly the triple (model, messages, temperature).  The sha256 of the
sorted-keys JSON dump is collision free on the inputs of interest, so the
triple itself stands for the digest; messages are (role, content) pairs. -/
abbrev CKey : Type := String × List (String × String) × ℚ

/-- Gateway-visible cache state plus the per-tier upstream request
counters used to account network calls (the counters double as the index
of the next upstream request of that tier). -/
structure GState where
  cache : List (CKey × String × Nat)
  fastCalls : Nat
  deepCalls : Nat

/-- Upstream behavior of the two OpenRouter model tiers: the value at n is
the content served for the n-th request of that tier, none standing for a
transport or non-2xx failure that raises in the client. -/
structure LLMEnv where
  fast : Nat → Option String
  deep : Nat → Option String

/-- Redis read through CacheManager.get at time t: the stored value when
the key is present and not yet expired. -/
def cacheLookup : List (CKey × String × Nat) → Nat → CKey → Option String
  | [], _, _ => none
  | (k, v, exp) :: rest, t, key =>
    if k = key then (if t < exp then some v else none)
    else cacheLookup rest t key

/-- Truthiness test the client applies to the cached value (if cached:):
an empty string is falsy and is treated as a miss. -/
def cacheHit : Option String → Option String
  | some v => if v = "" then none else some v
  | none => none

/-- One attempt of the body of LLMClient.call_deepseek: cache lookup when
use_cache, then one upstream request; a success is written back to the
cache with the fixed 86400 second TTL, a failure re-raises so that the
tenacity decorator retries. -/
def callDeepseekOnce (env : LLMEnv) (t : Nat) (model : String)
    (messages : List (String × String)) (temperature : ℚ) (useCache : Bool)
    (st : GState) : Except Unit String × GState :=
  let key : CKey := (model, messages, temperature)
  let hit := if useCache then cacheHit (cacheLookup st.cache t key) else none
  match hit with
  | some v => (Except.ok v, st)
  | none =>
    match env.deep st.deepCalls with
    | some output =>
      let st1 := { st with deepCalls := st.deepCalls + 1 }
      let st2 :=
        if useCache then
          { st1 with cache := (key, output, t + 86400) :: st1.cache }
        else st1
      (Except.ok output, st2)
    | none => (Except.error (), { st with deepCalls := st.deepCalls + 1 })

/-- Tenacity retry with stop_after_attempt(3): up to three attempts of the
wrapped body, re-raising after the third failure (the backoff waits have no
observable effect in this embedding). -/
def retry3 (f : GState → Except Unit String × GState) (st : GState) :
    Except Unit String × GState :=
  match f st with
  | (Except.ok v, st1) => (Except.ok v, st1)
  | (Except.error _, st1) =>
    match f st1 with
    | (Except.ok v, st2) => (Except.ok v, st2)
    | (Except.error _, st2) =>
      match f st2 with
      | (Except.ok v, st3) => (Except.ok v, st3)
      | (Except.error e, st3) => (Except.error e, st3)

/-- LLMClient.call_deepseek as seen by callers: the retry-decorated body. -/
def call_deepseek (env : LLMEnv) (t : Nat) (model : String)
    (messages : List (String × String)) (temperature : ℚ) (useCache : Bool)
    (st : GState) : Except Unit String × GState :=
  retry3 (callDeepseekOnce env t model messages temperature useCache) st

/-- One attempt of the body of LLMClient.call_qwen: cache lookup, then one
fast-tier upstream request.  A success is cached only when also non-empty
(if use_cache and output:).  A failure is caught by the except clause of
the body, which immediately returns the result of the retry-decorated
call_deepseek with the default deep model; only an exception of that
fallback escapes the body and is seen by the tenacity decorator of
call_qwen itself. -/
def callQwenOnce (env : LLMEnv) (t : Nat) (model : String)
    (messages : List (String × String)) (temperature : ℚ) (useCache : Bool)
    (st : GState) : Except Unit String × GState :=
  let key : CKey := (model, messages, temperature)
  let hit := if useCache then cacheHit (cacheLookup st.cache t key) else none
  match hit with
  | some v => (Except.ok v, st)
  | none =>
    match env.fast st.fastCalls with
    | some output =>
      let st1 := { st with fastCalls := st.fastCalls + 1 }
      let st2 :=
        if useCache ∧ output ≠ "" then
          { st1 with cache := (key, output, t + 86400) :: st1.cache }
        else st1
      (Except.ok output, st2)
    | none =>
      let st1 := { st with fastCalls := st.fastCalls + 1 }
      call_deepseek env t "deepseek/deepseek-chat" messages temperature useCache st1

/-- LLMClient.call_qwen as seen by callers: the retry-decorated body. -/
def call_qwen (env : LLMEnv) (t : Nat) (model : String)
    (messages : List (String × String)) (temperature : ℚ) (useCache : Bool)
    (st : GState) : Except Unit String × GState :=
  retry3 (callQwenOnce env t model messages temperature useCache) st

/-- Fresh gateway state: empty cache and no upstream requests issued. -/
def gInit : GState := { cache := [], fastCalls := 0, deepCalls := 0 }

/-- Insight dict as consumed by RewardModel.extract_features and
predict_quality: each optional field is a key that insight.get reads with
the default used at that call site (5.0 for the score and the priority,
the empty string for text fields, the empty list for evidence). -/
structure Insight where
  interestingness_score : Option ℚ
  signal_type : Option String
  analysis : Option String
  evidence : List String
  signalPriority : Option ℚ

/-- Raw interestingness score read by the reward model,
insight.get with default 5.0. -/
def rawScore (i : Insight) : ℚ := i.interestingness_score.getD 5

/-- Embedding of RewardModel.extract_features: the seven-dimensional
feature vector in the fixed source order. -/
def extract_features (i : Insight) : List ℚ :=
  let analysisLower := pyLower (i.analysis.getD "")
  [ rawScore i,
    if containsSub "promoter".data (pyLower (i.signal_type.getD "")) then 1 else 0,
    if containsSub "fundamental".data analysisLower ∧
       containsSub "signal".data analysisLower then 1 else 0,
    if containsSub "past".data analysisLower ∨
       containsSub "historical".data analysisLower ∨
       containsSub "previously".data analysisLower ∨
       containsSub "track record".data analysisLower then 1 else 0,
    i.signalPriority.getD 5,
    (i.evidence.length : ℚ),
    ((i.analysis.getD "").length : ℚ) / 1000 ]

/-- Fitted-parameter view of the sklearn LogisticRegression held by
RewardModel: is_trained mirrors the Python flag, coef and intercept are the
learned weights consulted through predict_proba. -/
structure RewardModelM where
  is_trained : Bool
  coef : List ℝ
  intercept : ℝ

/-- Dot product of weight and feature lists (trailing entries of the longer
list are ignored, as in the fixed seven-dimensional setting). -/
def dotR : List ℝ → List ℝ → ℝ
  | [], _ => 0
  | _, [] => 0
  | a :: as', b :: bs' => a * b + dotR as' bs'

/-- Probability of the positive class returned by
LogisticRegression.predict_proba, the logistic sigmoid of the fitted linear
score; this models the documented behavior of the external sklearn
estimator. -/
noncomputable def sigmoid (z : ℝ) : ℝ := 1 / (1 + Real.exp (-z))

/-- Embedding of RewardModel.predict_quality: the rawScore / 10 fallback
when the model is untrained, otherwise predict_proba of the extracted
features. -/
noncomputable def predict_quality (m : RewardModelM) (i : Insight) : ℝ :=
  if m.is_trained = false then ((rawScore i : ℚ) : ℝ) / 10
  else sigmoid (dotR m.coef ((extract_features i).map (fun q => (q : ℝ))) + m.intercept)

/-- Embedding of RewardModel.train: with fewer labeled feedback rows than
min_samples (or none at all) training is skipped, False is returned and the
model state is left untouched; otherwise the external fit (abstracted as a
parameter) produces the weights and the trained flag is set. -/
def train (fit : List (Insight × ℕ) → List ℝ × ℝ) (m : RewardModelM)
    (rows : List (Insight × ℕ)) (minSamples : ℕ) : RewardModelM × Bool :=
  if rows.length = 0 ∨ rows.length < minSamples then (m, false)
  else
    let w := fit rows
    ({ is_trained := true, coef := w.1, intercept := w.2 }, true)

/-- Fast-tier upstream that fails on its first two requests and succeeds on
the third, over a deep tier that always succeeds: the scenario of the first
half of the retry-policy claim. -/
def flakyFastEnv : LLMEnv :=
  { fast := fun n => if n < 2 then none else some "ok-fast"
    deep := fun _ => some "ok-deep" }

/-- Upstreams that always fail on both tiers: the scenario of the second
half of the retry-policy claim. -/
def failingEnv : LLMEnv :=
  { fast := fun _ => none
    deep := fun _ => none }

/-- Deep-tier upstream that always serves the fixed content v (the fast
tier is never consulted by call_deepseek). -/
def constDeepEnv (v : String) : LLMEnv :=
  { fast := fun _ => none
    deep := fun _ => some v }

/-- Concrete insider-trading signal used by the concrete scenarios. -/
def sigB : Signal :=
  { signal_type := "insider_trading", source := "nse",
    data := [("symbol", "ABC"), ("company", "AbcCo")], priority := 8 }

/-- Raw synthesis response consisting of a JSON object that carries only
the interestingness_score key. -/
def scoreOnlyJson : String := "\x7b\"interestingness_score\": 8.0\x7d"

/-- Behavior of json.loads on the slice cut from scoreOnlyJson: the Python
call json.loads on that text yields the singleton dict with key
interestingness_score and value 8.0, and the function is not consulted on
any other input in the concrete scenarios below. -/
def scoreOnlyParse : List Char → Option JValue := fun cs =>
  if cs = scoreOnlyJson.data then
    some (JValue.obj [("interestingness_score", JValue.num 8)])
  else none

/-- Stage environment of a signal whose Discovery verdict is negative. -/
def skipEnv : StageEnv :=
  { jsonParse := fun _ => none
    scraper := fun _ => none
    fundCache := []
    discoveryResp := Except.ok "INTERESTING: NO"
    level1Resp := Except.ok ""
    level2Resp := Except.ok ""
    level3Resp := Except.ok ""
    level4Resp := Except.ok ""
    industryResp := Except.ok ""
    peerResp := Except.ok ""
    validationResp := Except.ok ""
    synthesisResp := Except.ok "" }

/-- Stage environment of a fully successful run: positive Discovery
verdict, all research and context calls answered, positive Validation
verdict, and a Synthesis response whose JSON carries score 8.0. -/
def okEnv : StageEnv :=
  { jsonParse := scoreOnlyParse
    scraper := fun _ => none
    fundCache := []
    discoveryResp := Except.ok "INTERESTING: YES"
    level1Resp := Except.ok "l1"
    level2Resp := Except.ok "l2"
    level3Resp := Except.ok "l3"
    level4Resp := Except.ok "l4"
    industryResp := Except.ok "ind"
    peerResp := Except.ok "peer"
    validationResp := Except.ok "VERIFIED: YES"
    synthesisResp := Except.ok scoreOnlyJson }

/-- Stage environment whose Discovery call raises an UpstreamError after
exhausting retries and fallback. -/
def badEnv : StageEnv :=
  { jsonParse := fun _ => none
    scraper := fun _ => none
    fundCache := []
    discoveryResp := Except.error ()
    level1Resp := Except.ok ""
    level2Resp := Except.ok ""
    level3Resp := Except.ok ""
    level4Resp := Except.ok ""
    industryResp := Except.ok ""
    peerResp := Except.ok ""
    validationResp := Except.ok ""
    synthesisResp := Except.ok "" }

/-- Stage environment of a successful run in which the Screener scraper
returns a fundamentals dict, so the enrichment call attaches it to the
signal object. -/
def mutEnv : StageEnv :=
  { jsonParse := scoreOnlyParse
    scraper := fun _ => some [("pe", "12")]
    fundCache := []
    discoveryResp := Except.ok "INTERESTING: YES"
    level1Resp := Except.ok "l1"
    level2Resp := Except.ok "l2"
    level3Resp := Except.ok "l3"
    level4Resp := Except.ok "l4"
    industryResp := Except.ok "ind"
    peerResp := Except.ok "peer"
    validationResp := Except.ok "VERIFIED: YES"
    synthesisResp := Except.ok scoreOnlyJson }

/-- Raw synthesis response whose JSON object scores 6.0, below the 7.0
threshold. -/
def lowJson : String := "\x7b\"interestingness_score\": 6.0\x7d"

/-- Behavior of json.loads on the slice cut from lowJson. -/
def lowParse : List Char → Option JValue := fun cs =>
  if cs = lowJson.data then
    some (JValue.obj [("interestingness_score", JValue.num 6)])
  else none

/-- Stage environment of a run that completes Synthesis successfully with
a below-threshold score of 6.0. -/
def lowEnv : StageEnv :=
  { jsonParse := lowParse
    scraper := fun _ => none
    fundCache := []
    discoveryResp := Except.ok "INTERESTING: YES"
    level1Resp := Except.ok "l1"
    level2Resp := Except.ok "l2"
    level3Resp := Except.ok "l3"
    level4Resp := Except.ok "l4"
    industryResp := Except.ok "ind"
    peerResp := Except.ok "peer"
    validationResp := Except.ok "VERIFIED: YES"
    synthesisResp := Except.ok lowJson }

/-- Terminal record of the lowEnv run on sigB, written out field by
field. -/
def lowFinal : RState :=
  { signal := sigB
    is_interesting := true
    initial_assessment := "INTERESTING: YES"
    level1_context := some "l1"
    level2_historical := some "l2"
    level3_fundamentals := some "l3"
    level4_synthesis := some "l4"
    industry_context := some "ind"
    peer_comparison := some "peer"
    facts_verified := true
    validation_notes := "VERIFIED: YES"
    final_insight := some (JValue.obj
      [("interestingness_score", JValue.num 6),
       ("signal_type", JValue.str "insider_trading"),
       ("company_symbol", JValue.str "ABC"),
       ("company_name", JValue.str "AbcCo")])
    passes_threshold := false
    interestingness_score := 6
    research_path := ["discovery", "deep_research", "context", "validation", "synthesis"]
    errors := [] }

/-- Reward model state before any training has succeeded. -/
def untrainedModel : RewardModelM :=
  { is_trained := false, coef := [], intercept := 0 }

/-- Insight dict carrying only an interestingness score of 8.0. -/
def insight8 : Insight :=
  { interestingness_score := some 8
    signal_type := none
    analysis := none
    evidence := []
    signalPriority := none }

end VIA

namespace VIA

lemma neg_one_le_pyRFindChar (s : List Char) (c : Char) : -1 ≤ pyRFindChar s c := by
  induction s with
  | nil => simp [pyRFindChar]
  | cons a rest ih =>
    simp only [pyRFindChar]
    split
    · split <;> omega
    · omega

lemma pyRFindChar_of_not_mem (s : List Char) (c : Char) (h : c ∉ s) :
    pyRFindChar s c = -1 := by
  induction s with
  | nil => rfl
  | cons a rest ih =>
    simp only [List.mem_cons, not_or] at h
    have hne : a ≠ c := fun hac => h.1 hac.symm
    simp only [pyRFindChar]
    rw [ih h.2]
    simp [hne]

lemma pyFindChar_append (pre rest : List Char) (c : Char) (h : c ∉ pre) :
    pyFindChar (pre ++ c :: rest) c = pre.length := by
  induction pre with
  | nil => simp [pyFindChar]
  | cons a pre' ih =>
    simp only [List.mem_cons, not_or] at h
    have hne : a ≠ c := fun hac => h.1 hac.symm
    simp only [List.cons_append, pyFindChar, List.append_eq]
    rw [if_neg hne, ih h.2]
    have hlen : ((pre'.length : Int)) ≠ -1 := by omega
    rw [if_neg hlen]
    simp only [List.length_cons]
    push_cast
    omega

lemma pyRFindChar_append (s post : List Char) (c : Char) (h : c ∉ post) :
    pyRFindChar (s ++ c :: post) c = s.length := by
  induction s with
  | nil =>
    simp only [List.nil_append, pyRFindChar]
    rw [pyRFindChar_of_not_mem post c h]
    simp
  | cons a s' ih =>
    simp only [List.cons_append, pyRFindChar, List.append_eq]
    rw [ih]
    have hlen : ((s'.length : Int)) ≠ -1 := by omega
    rw [if_neg hlen]
    simp only [List.length_cons]
    push_cast
    omega

lemma braceSlice (pre mid post : List Char)
    (h1 : '\x7b' ∉ pre) (h2 : '\x7d' ∉ post) :
    pySlice (pre ++ '\x7b' :: (mid ++ '\x7d' :: post))
        (pyFindChar (pre ++ '\x7b' :: (mid ++ '\x7d' :: post)) '\x7b')
        (pyRFindChar (pre ++ '\x7b' :: (mid ++ '\x7d' :: post)) '\x7d' + 1) =
      '\x7b' :: (mid ++ ['\x7d']) := by
  have hf : pyFindChar (pre ++ '\x7b' :: (mid ++ '\x7d' :: post)) '\x7b' = pre.length :=
    pyFindChar_append pre (mid ++ '\x7d' :: post) '\x7b' h1
  have hsplit : pre ++ '\x7b' :: (mid ++ '\x7d' :: post) =
      (pre ++ '\x7b' :: mid) ++ '\x7d' :: post := by simp
  have hr : pyRFindChar (pre ++ '\x7b' :: (mid ++ '\x7d' :: post)) '\x7d' =
      (pre ++ '\x7b' :: mid).length := by
    rw [hsplit]
    exact pyRFindChar_append (pre ++ '\x7b' :: mid) post '\x7d' h2
  rw [hf, hr]
  unfold pySlice
  have hlen : (pre ++ '\x7b' :: mid).length = pre.length + mid.length + 1 := by
    simp [List.length_append]
    omega
  rw [hlen]
  have ht1 : ((pre.length : Int)).toNat = pre.length := by omega
  have ht2 : ((((pre.length + mid.length + 1 : ℕ) : Int)) + 1).toNat =
      pre.length + mid.length + 2 := by omega
  rw [ht1, ht2]
  have hdrop : (pre ++ '\x7b' :: (mid ++ '\x7d' :: post)).drop pre.length =
      '\x7b' :: (mid ++ '\x7d' :: post) := by
    simp [List.drop_left]
  rw [hdrop]
  have hsub : pre.length + mid.length + 2 - pre.length = mid.length + 2 := by omega
  rw [hsub]
  rw [show ('\x7b' :: (mid ++ '\x7d' :: post)).take (mid.length + 2) =
      '\x7b' :: (mid ++ '\x7d' :: post).take (mid.length + 1) from rfl]
  congr 1
  rw [show mid ++ '\x7d' :: post = (mid ++ ['\x7d']) ++ post by simp]
  rw [show mid.length + 1 = (mid ++ ['\x7d']).length by simp]
  exact List.take_left (mid ++ ['\x7d']) post

lemma synthesisResult_fails (jsonParse : List Char → Option JValue)
    (sig : Signal) (resp : String)
    (hfail :
      pyFindChar resp.data '\x7b' = -1 ∨
      jsonParse (pySlice resp.data (pyFindChar resp.data '\x7b')
        (pyRFindChar resp.data '\x7d' + 1)) = none ∨
      ∀ fields, jsonParse (pySlice resp.data (pyFindChar resp.data '\x7b')
          (pyRFindChar resp.data '\x7d' + 1)) = some (JValue.obj fields) →
        (getKey (injectMeta sig fields) "interestingness_score").bind jNum = none) :
    synthesisResult jsonParse sig resp = none := by
  have hstop : pyRFindChar resp.data '\x7d' + 1 ≠ -1 := by
    have := neg_one_le_pyRFindChar resp.data '\x7d'
    omega
  unfold synthesisResult
  by_cases hs : pyFindChar resp.data '\x7b' = -1
  · simp [hs]
  · rw [if_pos ⟨hs, hstop⟩]
    split
    · rename_i fields heq
      split
      · rename_i v heq2
        split
        · rcases hfail with hstart | hp | hk
          · exact absurd hstart hs
          · rw [hp] at heq
            cases heq
          · have hb := hk fields heq
            rw [heq2] at hb
            simp only [Option.some_bind] at hb
            rename_i q heq3
            rw [heq3] at hb
            cases hb
        · rfl
      · rfl
    · rfl

/-- Claim C1, as stated, is false: against a fast-tier upstream that fails
twice then succeeds (and a healthy deep tier), the Gateway does not return
the success of the third fast-tier attempt with no fallback; it issues a
fallback call to the deep tier during the very first attempt and returns
the deep-tier response, with exactly one fast-tier and one deep-tier
upstream request. -/
theorem c1_fallback_counterexample :
    (call_qwen flakyFastEnv 0 "qwen/qwen-2.5-72b-instruct" [] 0 true gInit).1 =
      Except.ok "ok-deep" ∧
    "ok-deep" ≠ "ok-fast" ∧
    (call_qwen flakyFastEnv 0 "qwen/qwen-2.5-72b-instruct" [] 0 true gInit).2.deepCalls = 1 ∧
    (1 : ℕ) ≠ 0 := by
  exact ⟨rfl, by decide, rfl, by decide⟩

/-- Claim C1 amended: the fast tier falls back to the deep tier on its
first failure, before any same-tier retry.  For every fast-tier request,
against an upstream that fails twice then succeeds the Gateway returns the
deep-tier fallback response after one fast-tier and one deep-tier request;
against upstreams that always fail, every one of the three fast-tier
attempts triggers a fallback invocation of the retry-decorated deep-tier
call, for 3 fast-tier and 9 deep-tier upstream requests, and only then does
the Gateway raise. -/
theorem c1_retry_fallback_amended (messages : List (String × String))
    (temperature : ℚ) (t : ℕ) :
    (call_qwen flakyFastEnv t "qwen/qwen-2.5-72b-instruct" messages temperature true gInit).1 =
      Except.ok "ok-deep" ∧
    (call_qwen flakyFastEnv t "qwen/qwen-2.5-72b-instruct" messages temperature true gInit).2.fastCalls = 1 ∧
    (call_qwen flakyFastEnv t "qwen/qwen-2.5-72b-instruct" messages temperature true gInit).2.deepCalls = 1 ∧
    (call_qwen failingEnv t "qwen/qwen-2.5-72b-instruct" messages temperature true gInit).1 =
      Except.error () ∧
    (call_qwen failingEnv t "qwen/qwen-2.5-72b-instruct" messages temperature true gInit).2.fastCalls = 3 ∧
    (call_qwen failingEnv t "qwen/qwen-2.5-72b-instruct" messages temperature true gInit).2.deepCalls = 9 := by
  exact ⟨rfl, rfl, rfl, rfl, rfl, rfl⟩

/-- Claim C2 (code bug witness): DiscoveryAgent rebuilds the path from
scratch instead of appending to the incoming history.  On a record whose
incoming research_path already holds an entry, the stage returns the
one-element literal list, dropping the prior history that the appending
dead code below the live return statement would have preserved. -/
theorem c2_discovery_path_overwrite :
    (discoveryUpdate
        { initState
            { signal_type := "insider_trading", source := "nse",
              data := [("symbol", "ABC")], priority := 8 } with
          research_path := ["seed"] }
        "INTERESTING: NO").research_path = ["discovery"] ∧
    (["discovery"] : List String) ≠ ["seed", "discovery"] := by
  exact ⟨rfl, by decide⟩

/-- Claim C3, as stated, is false: when the upstream success content is the
empty string, the value is cached but the truthiness test on lookup treats
it as a miss, so the identical second submission issues a second upstream
network call (two deep-tier requests in total, not exactly one). -/
theorem c3_empty_response_counterexample :
    (call_deepseek (constDeepEnv "") 0 "deepseek/deepseek-chat" [] 0 true gInit).1 =
      Except.ok "" ∧
    (call_deepseek (constDeepEnv "") 100 "deepseek/deepseek-chat" [] 0 true
        (call_deepseek (constDeepEnv "") 0 "deepseek/deepseek-chat" [] 0 true gInit).2).2.deepCalls = 2 ∧
    (2 : ℕ) ≠ 1 := by
  exact ⟨rfl, rfl, by decide⟩

/-- Claim C3 amended: for every (model, messages, temperature) triple whose
first submission is answered with non-empty content, two identical
submissions with use_cache within the 24 hour TTL issue exactly one
upstream network call: the first run performs one deep-tier request and
writes the keyed entry with expiry t1 + 86400, and the second run at any
t2 below that expiry returns the same content from the cache with the
gateway state unchanged (no further upstream request, no retry
accounting). -/
theorem c3_cache_idempotence_amended (model : String)
    (messages : List (String × String)) (temperature : ℚ) (t1 t2 : ℕ)
    (v : String) (hv : v ≠ "") (ht : t2 < t1 + 86400) :
    call_deepseek (constDeepEnv v) t1 model messages temperature true gInit =
      (Except.ok v, ⟨[((model, messages, temperature), v, t1 + 86400)], 0, 1⟩) ∧
    call_deepseek (constDeepEnv v) t2 model messages temperature true
        ⟨[((model, messages, temperature), v, t1 + 86400)], 0, 1⟩ =
      (Except.ok v, ⟨[((model, messages, temperature), v, t1 + 86400)], 0, 1⟩) := by
  constructor
  · rfl
  · simp [call_deepseek, retry3, callDeepseekOnce, cacheLookup, cacheHit, ht, hv]

/-- Witness for the amended C3 at a concrete request, 100 seconds apart. -/
theorem c3_cache_idempotence_witness :
    (("resp" : String) ≠ "" ∧ (100 : ℕ) < 0 + 86400) ∧
    (call_deepseek (constDeepEnv "resp") 0 "deepseek/deepseek-chat"
        [("user", "hi")] 0 true gInit =
      (Except.ok "resp",
        ⟨[(("deepseek/deepseek-chat", [("user", "hi")], 0), "resp", 0 + 86400)], 0, 1⟩) ∧
    call_deepseek (constDeepEnv "resp") 100 "deepseek/deepseek-chat"
        [("user", "hi")] 0 true
        ⟨[(("deepseek/deepseek-chat", [("user", "hi")], 0), "resp", 0 + 86400)], 0, 1⟩ =
      (Except.ok "resp",
        ⟨[(("deepseek/deepseek-chat", [("user", "hi")], 0), "resp", 0 + 86400)], 0, 1⟩)) :=
  ⟨⟨by decide, by decide⟩,
    c3_cache_idempotence_amended "deepseek/deepseek-chat" [("user", "hi")] 0 0 100
      "resp" (by decide) (by decide)⟩

/-- Claim C4: for every Synthesis run whose response slice parses as a JSON
object carrying a numeric interestingness_score q (after the key
injections), the returned record stores exactly q as the score, stores the
parsed object as the final insight whose interestingness_score entry is
that same value, and sets passes_threshold exactly when 7 <= q, the fixed
7.0 cutoff of the source. -/
theorem c4_score_threshold (jsonParse : List Char → Option JValue)
    (st : RState) (resp : String) (fields0 : List (String × JValue))
    (v : JValue) (q : ℚ)
    (hfind : pyFindChar resp.data '\x7b' ≠ -1)
    (hparse : jsonParse (pySlice resp.data (pyFindChar resp.data '\x7b')
        (pyRFindChar resp.data '\x7d' + 1)) = some (JValue.obj fields0))
    (hkey : getKey (injectMeta st.signal fields0) "interestingness_score" = some v)
    (hnum : jNum v = some q) :
    synthesisUpdate jsonParse st resp =
      { st with final_insight := some (JValue.obj (injectMeta st.signal fields0)),
                passes_threshold := decide (7 ≤ q),
                interestingness_score := q,
                research_path := st.research_path ++ ["synthesis"] } ∧
    (decide (7 ≤ q) = true ↔ 7 ≤ q) := by
  have hstop : pyRFindChar resp.data '\x7d' + 1 ≠ -1 := by
    have := neg_one_le_pyRFindChar resp.data '\x7d'
    omega
  constructor
  · simp [synthesisUpdate, synthesisResult, hfind, hstop, hparse, hkey, hnum]
  · exact decide_eq_true_iff

/-- Witness for C4: the score-only JSON response with score 8.0 yields the
insight with score 8 and a passing threshold flag. -/
theorem c4_score_threshold_witness :
    (pyFindChar scoreOnlyJson.data '\x7b' ≠ -1 ∧
     scoreOnlyParse (pySlice scoreOnlyJson.data (pyFindChar scoreOnlyJson.data '\x7b')
        (pyRFindChar scoreOnlyJson.data '\x7d' + 1)) =
       some (JValue.obj [("interestingness_score", JValue.num 8)]) ∧
     getKey (injectMeta (initState sigB).signal [("interestingness_score", JValue.num 8)])
        "interestingness_score" = some (JValue.num 8) ∧
     jNum (JValue.num 8) = some 8) ∧
    (synthesisUpdate scoreOnlyParse (initState sigB) scoreOnlyJson =
      { initState sigB with
          final_insight := some (JValue.obj
            (injectMeta (initState sigB).signal [("interestingness_score", JValue.num 8)])),
          passes_threshold := decide ((7 : ℚ) ≤ 8),
          interestingness_score := 8,
          research_path := (initState sigB).research_path ++ ["synthesis"] } ∧
     (decide ((7 : ℚ) ≤ 8) = true ↔ (7 : ℚ) ≤ 8)) :=
  ⟨⟨by decide, rfl, rfl, rfl⟩,
    c4_score_threshold scoreOnlyParse (initState sigB) scoreOnlyJson
      [("interestingness_score", JValue.num 8)] (JValue.num 8) 8
      (by decide) rfl rfl rfl⟩

/-- Claim C5: whenever the Discovery response parses as not interesting,
the engine routes straight from discovery to END: the invoked node trace is
exactly the singleton discovery, the terminal record carries no final
insight, its research path is exactly the one discovery entry, and none of
DeepResearch, Context, Validation or Synthesis runs. -/
theorem c5_uninteresting_short_circuit (env : StageEnv) (sig : Signal)
    (r : String) (h1 : env.discoveryResp = Except.ok r)
    (h2 : parseInteresting r = false) :
    graphInvoke env sig = Except.ok (discoveryUpdate (initState sig) r, ["discovery"]) ∧
    (discoveryUpdate (initState sig) r).final_insight = none ∧
    (discoveryUpdate (initState sig) r).research_path = ["discovery"] := by
  refine ⟨?_, ?_, ?_⟩
  · simp [graphInvoke, h1, discoveryUpdate, h2]
  · simp [discoveryUpdate, initState]
  · simp [discoveryUpdate]

/-- Witness for C5 on a concrete negative-verdict environment. -/
theorem c5_uninteresting_short_circuit_witness :
    (skipEnv.discoveryResp = Except.ok "INTERESTING: NO" ∧
     parseInteresting "INTERESTING: NO" = false) ∧
    (graphInvoke skipEnv sigB =
        Except.ok (discoveryUpdate (initState sigB) "INTERESTING: NO", ["discovery"]) ∧
     (discoveryUpdate (initState sigB) "INTERESTING: NO").final_insight = none ∧
     (discoveryUpdate (initState sigB) "INTERESTING: NO").research_path = ["discovery"]) :=
  ⟨⟨rfl, by decide⟩,
    c5_uninteresting_short_circuit skipEnv sigB "INTERESTING: NO" rfl (by decide)⟩

/-- Claim C6, as stated, is false: a response whose JSON object lacks the
required keys headline, analysis, evidence and metadata but does carry
interestingness_score is accepted by the Synthesis stage, which reports no
synthesis error and no synthesis_failed marker but a successful synthesis
with a final insight. -/
theorem c6_missing_key_counterexample :
    getKey [("interestingness_score", JValue.num 8)] "headline" = none ∧
    (synthesisUpdate scoreOnlyParse (initState sigB) scoreOnlyJson).errors = [] ∧
    (synthesisUpdate scoreOnlyParse (initState sigB) scoreOnlyJson).research_path =
      ["synthesis"] ∧
    (synthesisUpdate scoreOnlyParse (initState sigB) scoreOnlyJson).final_insight =
      some (JValue.obj
        [("interestingness_score", JValue.num 8),
         ("signal_type", JValue.str "insider_trading"),
         ("company_symbol", JValue.str "ABC"),
         ("company_name", JValue.str "AbcCo")]) := by
  exact ⟨rfl, rfl, rfl, rfl⟩

/-- Claim C6 amended: the only key the stage requires of the parsed object
is a numeric interestingness_score.  For every Synthesis run whose raw
response lacks an opening brace, or whose brace-delimited slice does not
parse as JSON, or whose parsed object lacks a numeric interestingness_score
after the key injections, the stage returns the incoming record with
exactly one typed synthesis error appended to errors and one
synthesis_failed marker appended to the path, leaves final_insight unset
and raises nothing; and the slice handed to the JSON parser is exactly the
substring from the first opening brace to the last closing brace of the
raw response, both included. -/
theorem c6_synthesis_fail_soft_amended (jsonParse : List Char → Option JValue)
    (st : RState) (resp : String)
    (hfail :
      pyFindChar resp.data '\x7b' = -1 ∨
      jsonParse (pySlice resp.data (pyFindChar resp.data '\x7b')
        (pyRFindChar resp.data '\x7d' + 1)) = none ∨
      ∀ fields, jsonParse (pySlice resp.data (pyFindChar resp.data '\x7b')
          (pyRFindChar resp.data '\x7d' + 1)) = some (JValue.obj fields) →
        (getKey (injectMeta st.signal fields) "interestingness_score").bind jNum = none) :
    synthesisUpdate jsonParse st resp =
      { st with errors := st.errors ++ ["Synthesis Error"],
                research_path := st.research_path ++ ["synthesis_failed"] } ∧
    (synthesisUpdate jsonParse st resp).final_insight = st.final_insight ∧
    ∀ (pre mid post : List Char), '\x7b' ∉ pre → '\x7d' ∉ post →
      resp.data = pre ++ '\x7b' :: (mid ++ '\x7d' :: post) →
      pySlice resp.data (pyFindChar resp.data '\x7b')
          (pyRFindChar resp.data '\x7d' + 1) =
        '\x7b' :: (mid ++ ['\x7d']) := by
  have hnone : synthesisResult jsonParse st.signal resp = none :=
    synthesisResult_fails jsonParse st.signal resp hfail
  refine ⟨?_, ?_, ?_⟩
  · simp [synthesisUpdate, hnone]
  · simp [synthesisUpdate, hnone]
  · intro pre mid post hpre hpost hdecomp
    rw [hdecomp]
    exact braceSlice pre mid post hpre hpost

/-- Witness for the amended C6: a response with no brace at all fails soft
with the error and path marker appended. -/
theorem c6_synthesis_fail_soft_witness :
    (pyFindChar ("no json here" : String).data '\x7b' = -1 ∨
      (fun (_ : List Char) => (none : Option JValue))
          (pySlice ("no json here" : String).data
            (pyFindChar ("no json here" : String).data '\x7b')
            (pyRFindChar ("no json here" : String).data '\x7d' + 1)) = none ∨
      ∀ fields, (fun (_ : List Char) => (none : Option JValue))
            (pySlice ("no json here" : String).data
              (pyFindChar ("no json here" : String).data '\x7b')
              (pyRFindChar ("no json here" : String).data '\x7d' + 1)) =
          some (JValue.obj fields) →
        (getKey (injectMeta (initState sigB).signal fields)
            "interestingness_score").bind jNum = none) ∧
    (synthesisUpdate (fun _ => none) (initState sigB) "no json here" =
      { initState sigB with
          errors := (initState sigB).errors ++ ["Synthesis Error"],
          research_path := (initState sigB).research_path ++ ["synthesis_failed"] } ∧
     (synthesisUpdate (fun _ => none) (initState sigB) "no json here").final_insight =
       (initState sigB).final_insight ∧
     ∀ (pre mid post : List Char), '\x7b' ∉ pre → '\x7d' ∉ post →
       ("no json here" : String).data = pre ++ '\x7b' :: (mid ++ '\x7d' :: post) →
       pySlice ("no json here" : String).data
           (pyFindChar ("no json here" : String).data '\x7b')
           (pyRFindChar ("no json here" : String).data '\x7d' + 1) =
         '\x7b' :: (mid ++ ['\x7d'])) :=
  ⟨Or.inl (by decide),
    c6_synthesis_fail_soft_amended (fun _ => none) (initState sigB) "no json here"
      (Or.inl (by decide))⟩

lemma runBatch_filterMap (batch : List (StageEnv × Signal)) :
    runBatch batch = batch.filterMap (fun p => research_signal p.1 p.2) := by
  suffices h : ∀ acc : List JValue,
      batch.foldl (fun acc p =>
        match research_signal p.1 p.2 with
        | some insight => acc ++ [insight]
        | none => acc) acc =
      acc ++ batch.filterMap (fun p => research_signal p.1 p.2) by
    simpa [runBatch] using h []
  induction batch with
  | nil => intro acc; simp
  | cons p rest ih =>
    intro acc
    simp only [List.foldl_cons, List.filterMap_cons]
    cases h : research_signal p.1 p.2 with
    | none => simp [h, ih]
    | some insight => simp [h, ih]

/-- Claim C7: an uncaught stage failure (here an upstream error raised out
of the Discovery call) is caught by research_signal at the run boundary,
that signal yields no insight, and wherever the failing signal sits inside
a batch, the batch result is exactly the concatenation of the results of
the signals before and after it: one failure never aborts the batch. -/
theorem c7_batch_isolation (pre post : List (StageEnv × Signal))
    (env : StageEnv) (sig : Signal)
    (h : env.discoveryResp = Except.error ()) :
    research_signal env sig = none ∧
    runBatch (pre ++ (env, sig) :: post) = runBatch pre ++ runBatch post := by
  have hnone : research_signal env sig = none := by
    simp [research_signal, graphInvoke, h]
  refine ⟨hnone, ?_⟩
  simp [runBatch_filterMap, List.filterMap_append, List.filterMap_cons, hnone]

/-- Witness for C7: a batch of three signals whose middle Discovery call
raises still yields the insights of signals one and three. -/
theorem c7_batch_isolation_witness :
    badEnv.discoveryResp = Except.error () ∧
    (research_signal badEnv sigB = none ∧
     runBatch ([(okEnv, sigB)] ++ (badEnv, sigB) :: [(okEnv, sigB)]) =
       runBatch [(okEnv, sigB)] ++ runBatch [(okEnv, sigB)]) ∧
    runBatch [(okEnv, sigB)] =
      [JValue.obj
        [("interestingness_score", JValue.num 8),
         ("signal_type", JValue.str "insider_trading"),
         ("company_symbol", JValue.str "ABC"),
         ("company_name", JValue.str "AbcCo")]] :=
  ⟨rfl, c7_batch_isolation [(okEnv, sigB)] [(okEnv, sigB)] badEnv sigB rfl, rfl⟩

lemma sigmoid_mem (z : ℝ) : 0 ≤ sigmoid z ∧ sigmoid z ≤ 1 := by
  have he : 0 < Real.exp (-z) := Real.exp_pos _
  unfold sigmoid
  constructor
  · apply div_nonneg
    · norm_num
    · linarith
  · rw [div_le_one (by linarith)]
    linarith

/-- Claim C8: for every insight whose raw interestingness score lies in
[1, 10], predict_quality returns a value in [0, 1] whatever the training
state; whenever the model is untrained it returns exactly rawScore / 10
with no caller-visible special case; and train with fewer labeled rows than
min_samples returns False and leaves the model state untouched. -/
theorem c8_predict_quality_bounds (m : RewardModelM) (i : Insight)
    (h1 : 1 ≤ rawScore i) (h2 : rawScore i ≤ 10) :
    (0 ≤ predict_quality m i ∧ predict_quality m i ≤ 1) ∧
    (m.is_trained = false → predict_quality m i = ((rawScore i : ℚ) : ℝ) / 10) ∧
    (∀ (fit : List (Insight × ℕ) → List ℝ × ℝ) (rows : List (Insight × ℕ))
        (minSamples : ℕ), rows.length < minSamples →
      train fit m rows minSamples = (m, false)) := by
  have h1r : (1 : ℝ) ≤ ((rawScore i : ℚ) : ℝ) := by exact_mod_cast h1
  have h2r : ((rawScore i : ℚ) : ℝ) ≤ 10 := by exact_mod_cast h2
  refine ⟨?_, ?_, ?_⟩
  · unfold predict_quality
    split
    · constructor
      · linarith
      · linarith
    · exact sigmoid_mem _
  · intro hm
    simp [predict_quality, hm]
  · intro fit rows minSamples hlen
    unfold train
    rw [if_pos (Or.inr hlen)]

/-- Witness for C8: on the untrained model and an insight scoring 8.0 the
prediction is 8/10, inside [0, 1]. -/
theorem c8_predict_quality_bounds_witness :
    (1 ≤ rawScore insight8 ∧ rawScore insight8 ≤ 10) ∧
    ((0 ≤ predict_quality untrainedModel insight8 ∧
      predict_quality untrainedModel insight8 ≤ 1) ∧
     (untrainedModel.is_trained = false →
      predict_quality untrainedModel insight8 = ((rawScore insight8 : ℚ) : ℝ) / 10) ∧
     (∀ (fit : List (Insight × ℕ) → List ℝ × ℝ) (rows : List (Insight × ℕ))
         (minSamples : ℕ), rows.length < minSamples →
       train fit untrainedModel rows minSamples = (untrainedModel, false))) :=
  ⟨⟨by decide, by decide⟩,
    c8_predict_quality_bounds untrainedModel insight8 (by decide) (by decide)⟩

lemma graphInvoke_inv (env : StageEnv) (sig : Signal) (final : RState)
    (tr : List String) (h : graphInvoke env sig = Except.ok (final, tr)) :
    (∃ r, env.discoveryResp = Except.ok r ∧
      final = discoveryUpdate (initState sig) r ∧
      (discoveryUpdate (initState sig) r).is_interesting = false) ∨
    (∃ r st2 st3 st4 sr,
      env.discoveryResp = Except.ok r ∧
      deepResearchUpdate env (discoveryUpdate (initState sig) r) = Except.ok st2 ∧
      contextUpdate env st2 = Except.ok st3 ∧
      validationUpdate env st3 = Except.ok st4 ∧
      env.synthesisResp = Except.ok sr ∧
      final = synthesisUpdate env.jsonParse st4 sr) := by
  unfold graphInvoke at h
  split at h
  · cases h
  · rename_i r heq
    split at h
    · rename_i hint
      split at h
      · cases h
      · rename_i st2 heq2
        split at h
        · cases h
        · rename_i st3 heq3
          split at h
          · cases h
          · rename_i st4 heq4
            split at h
            · cases h
            · rename_i sr heq5
              injection h with hp
              injection hp with hfin htr
              right
              exact ⟨r, st2, st3, st4, sr, heq, heq2, heq3, heq4, heq5, hfin.symm⟩
    · rename_i hint
      injection h with hp
      injection hp with hfin htr
      left
      refine ⟨r, heq, hfin.symm, ?_⟩
      cases hb : (discoveryUpdate (initState sig) r).is_interesting with
      | false => rfl
      | true => exact absurd hb hint

lemma enrichFromScraper_fields (cache : FundCache) (scraper : String → Option Fund)
    (sig : Signal) (sym : String) :
    (enrichFromScraper cache scraper sig sym).1.signal_type = sig.signal_type ∧
    (enrichFromScraper cache scraper sig sym).1.source = sig.source ∧
    (enrichFromScraper cache scraper sig sym).1.data = sig.data ∧
    (enrichFromScraper cache scraper sig sym).1.priority = sig.priority := by
  unfold enrichFromScraper
  repeat' split
  all_goals simp

lemma enrich_fields (cache : FundCache) (scraper : String → Option Fund) (sig : Signal) :
    (enrich_signal_with_fundamentals cache scraper sig).1.signal_type = sig.signal_type ∧
    (enrich_signal_with_fundamentals cache scraper sig).1.source = sig.source ∧
    (enrich_signal_with_fundamentals cache scraper sig).1.data = sig.data ∧
    (enrich_signal_with_fundamentals cache scraper sig).1.priority = sig.priority := by
  unfold enrich_signal_with_fundamentals
  repeat' split
  all_goals first
    | exact enrichFromScraper_fields cache scraper sig _
    | simp

lemma deepResearchUpdate_frame (env : StageEnv) (st st2 : RState)
    (h : deepResearchUpdate env st = Except.ok st2) :
    st2.signal.signal_type = st.signal.signal_type ∧
    st2.signal.source = st.signal.source ∧
    st2.signal.data = st.signal.data ∧
    st2.signal.priority = st.signal.priority ∧
    st2.final_insight = st.final_insight := by
  unfold deepResearchUpdate at h
  split at h
  · injection h with h2
    rw [← h2]
    simp
  · split at h
    · cases h
    · split at h
      · cases h
      · split at h
        · cases h
        · split at h
          · cases h
          · injection h with h2
            rw [← h2]
            have e1 := enrich_fields env.fundCache env.scraper st.signal
            have e2 := enrich_fields
              (enrich_signal_with_fundamentals env.fundCache env.scraper st.signal).2
              env.scraper
              (enrich_signal_with_fundamentals env.fundCache env.scraper st.signal).1
            exact ⟨e2.1.trans e1.1, e2.2.1.trans e1.2.1,
              e2.2.2.1.trans e1.2.2.1, e2.2.2.2.trans e1.2.2.2, rfl⟩

lemma contextUpdate_frame (env : StageEnv) (st st' : RState)
    (h : contextUpdate env st = Except.ok st') :
    st'.signal = st.signal ∧ st'.final_insight = st.final_insight := by
  unfold contextUpdate at h
  split at h
  · cases h
  · split at h
    · cases h
    · injection h with h2
      rw [← h2]
      exact ⟨rfl, rfl⟩

lemma validationUpdate_frame (env : StageEnv) (st st' : RState)
    (h : validationUpdate env st = Except.ok st') :
    st'.signal = st.signal ∧ st'.final_insight = st.final_insight := by
  unfold validationUpdate at h
  split at h
  · cases h
  · injection h with h2
    rw [← h2]
    exact ⟨rfl, rfl⟩

lemma synthesisUpdate_signal (jsonParse : List Char → Option JValue)
    (st : RState) (resp : String) :
    (synthesisUpdate jsonParse st resp).signal = st.signal := by
  unfold synthesisUpdate
  split <;> rfl

/-- Claim C9, as stated, is false: the enrichment call of the DeepResearch
stage attaches a new fundamentals key to the Signal object in place, so a
signal handed to the pipeline with no such key terminates a successful run
carrying one. -/
theorem c9_enrichment_mutation_counterexample :
    sigB.fundamentals = none ∧
    (graphInvoke mutEnv sigB).toOption.map (fun p => p.1.signal.fundamentals) =
      some (some [("pe", "12")]) := by
  exact ⟨rfl, rfl⟩

/-- Claim C9 amended: apart from the fundamentals key that enrichment may
attach in place, the Signal is left intact: after every run of the graph,
signal_type, source, the data map and priority of the record signal are
exactly those of the input signal, and no stage writes any other part of
it. -/
theorem c9_signal_fields_preserved_amended (env : StageEnv) (sig : Signal)
    (final : RState) (tr : List String)
    (h : graphInvoke env sig = Except.ok (final, tr)) :
    final.signal.signal_type = sig.signal_type ∧
    final.signal.source = sig.source ∧
    final.signal.data = sig.data ∧
    final.signal.priority = sig.priority := by
  rcases graphInvoke_inv env sig final tr h with
    ⟨r, hd, hfin, hskip⟩ | ⟨r, st2, st3, st4, sr, hd, hdr, hc, hv, hs, hfin⟩
  · rw [hfin]
    exact ⟨rfl, rfl, rfl, rfl⟩
  · have hdrf := deepResearchUpdate_frame env (discoveryUpdate (initState sig) r) st2 hdr
    have hcf := contextUpdate_frame env st2 st3 hc
    have hvf := validationUpdate_frame env st3 st4 hv
    have hsy := synthesisUpdate_signal env.jsonParse st4 sr
    rw [hfin, hsy, hvf.1, hcf.1]
    have hds : (discoveryUpdate (initState sig) r).signal = sig := rfl
    rw [hds] at hdrf
    exact ⟨hdrf.1, hdrf.2.1, hdrf.2.2.1, hdrf.2.2.2.1⟩

/-- Witness for the amended C9 on a concrete run that stops after
Discovery. -/
theorem c9_signal_fields_preserved_witness :
    graphInvoke skipEnv sigB =
      Except.ok (discoveryUpdate (initState sigB) "INTERESTING: NO", ["discovery"]) ∧
    ((discoveryUpdate (initState sigB) "INTERESTING: NO").signal.signal_type =
        sigB.signal_type ∧
     (discoveryUpdate (initState sigB) "INTERESTING: NO").signal.source = sigB.source ∧
     (discoveryUpdate (initState sigB) "INTERESTING: NO").signal.data = sigB.data ∧
     (discoveryUpdate (initState sigB) "INTERESTING: NO").signal.priority = sigB.priority) :=
  ⟨rfl,
    c9_signal_fields_preserved_amended skipEnv sigB
      (discoveryUpdate (initState sigB) "INTERESTING: NO") ["discovery"] rfl⟩

/-- Claim C10: a run that completes Synthesis with an insight whose score
is below 7.0 is silently discarded at the public interface: research_signal
returns None, exactly as it does for an uninteresting or failed signal, so
the insight never reaches the embedding, ranking or persistence steps of
the batch script, which consume only returned insights. -/
theorem c10_below_threshold_none (env : StageEnv) (sig : Signal)
    (final : RState) (tr : List String) (j : JValue)
    (h1 : graphInvoke env sig = Except.ok (final, tr))
    (h2 : final.final_insight = some j)
    (h3 : final.interestingness_score < 7) :
    research_signal env sig = none := by
  rcases graphInvoke_inv env sig final tr h1 with
    ⟨r, hd, hfin, hskip⟩ | ⟨r, st2, st3, st4, sr, hd, hdr, hc, hv, hs, hfin⟩
  · rw [hfin] at h2
    exact absurd h2 (by simp [discoveryUpdate, initState])
  · have hpass : final.passes_threshold = false := by
      rcases hres : synthesisResult env.jsonParse st4.signal sr with _ | ⟨fields, q⟩
      · have hfi : final.final_insight = st4.final_insight := by
          rw [hfin]
          simp [synthesisUpdate, hres]
        have h4 : st4.final_insight = none := by
          have hdrf := deepResearchUpdate_frame env (discoveryUpdate (initState sig) r) st2 hdr
          have hcf := contextUpdate_frame env st2 st3 hc
          have hvf := validationUpdate_frame env st3 st4 hv
          rw [hvf.2, hcf.2, hdrf.2.2.2.2]
          rfl
        rw [hfi, h4] at h2
        cases h2
      · have hq : final.interestingness_score = q := by
          rw [hfin]
          simp [synthesisUpdate, hres]
        have hdec : final.passes_threshold = decide (7 ≤ q) := by
          rw [hfin]
          simp [synthesisUpdate, hres]
        rw [hdec]
        simp only [decide_eq_false_iff_not]
        rw [← hq]
        exact not_le.mpr h3
    unfold research_signal
    rw [h1]
    simp [hpass]

/-- Witness for C10 on a run completing Synthesis with score 6.0. -/
theorem c10_below_threshold_none_witness :
    (graphInvoke lowEnv sigB =
        Except.ok (lowFinal,
          ["discovery", "deep_research", "context", "validation", "synthesis"]) ∧
     lowFinal.final_insight = some (JValue.obj
        [("interestingness_score", JValue.num 6),
         ("signal_type", JValue.str "insider_trading"),
         ("company_symbol", JValue.str "ABC"),
         ("company_name", JValue.str "AbcCo")]) ∧
     lowFinal.interestingness_score < 7) ∧
    research_signal lowEnv sigB = none :=
  ⟨⟨rfl, rfl, by decide⟩,
    c10_below_threshold_none lowEnv sigB lowFinal
      ["discovery", "deep_research", "context", "validation", "synthesis"]
      (JValue.obj
        [("interestingness_score", JValue.num 6),
         ("signal_type", JValue.str "insider_trading"),
         ("company_symbol", JValue.str "ABC"),
         ("company_name", JValue.str "AbcCo")])
      rfl rfl (by decide)⟩

end VIA
